import Mathlib

/-!
Shallow embedding of src/custom_components/blustream/media_player.py.

The file under verification is the Home Assistant media_player platform for a
Blustream matrix switcher.  Its observable behaviour is:

* `MyListener` routes callbacks from the pyblustream `Matrix` session to the
  registered entities: one `MatrixEntity` list and a dict from output id to
  `MatrixOutput`.
* `MatrixOutput` / `MatrixEntity` hold the displayed state (`_attr_state`,
  `_attr_source`) and translate user actions into `Matrix` command calls.

The pyblustream `Matrix` object is an external collaborator: here it is
modelled as immutable catalogs (`inputs_by_id`, `inputs_by_name`, both Python
dicts, embedded as association lists with unique keys) plus one boolean per
optional CEC method, recording whether the attribute exists on the library
object (`send_cec_power_on` etc. raise `AttributeError` when absent).

Python dicts are embedded as association lists: `dictGet` is `dict.get`
(`none` for a missing key), `dictInsert` is `d[k] = v` (replaces in place,
appends otherwise).  A raising subscript `d[k]` is `dictGet` inside `Except`.
Mutation of entity objects becomes explicit state passing; calls to the
device and log emissions are returned as lists.  `schedule_update_ha_state`
is a fire-and-forget UI signal with no effect on the modelled state, so it is
not represented.
-/

namespace Blustream

/-- Tri-state power as used by the file: `MediaPlayerState.ON` / `.OFF`,
with Python `None` (unknown) embedded as `Option.none` around this type. -/
inductive MediaPlayerState where
  | on
  | off
  deriving DecidableEq

/-- Log levels of the `_LOGGER` calls that the embedded code performs. -/
inductive LogLevel where
  | debug
  | info
  | warning
  | error
  deriving DecidableEq

/-- One `_LOGGER` emission: level plus the format string (arguments elided). -/
structure LogEntry where
  level : LogLevel
  msg : String
  deriving DecidableEq

/-- Calls made on the pyblustream `Matrix` command API. -/
inductive DeviceCall where
  | change_source (output_id : Nat) (input_id : Nat)
  | cec_power_on (output_id : Nat)
  | cec_power_off (output_id : Nat)
  | cec_volume_up (output_id : Nat)
  | cec_volume_down (output_id : Nat)
  | cec_mute (output_id : Nat)
  deriving DecidableEq

/-- Python `dict.get(k)`: first (unique) binding for the key, else `none`. -/
def dictGet {α β : Type} [DecidableEq α] (k : α) : List (α × β) → Option β
  | [] => none
  | p :: rest => if p.1 = k then some p.2 else dictGet k rest

/-- Python `d[k] = v`: replace the binding in place if the key is present,
append otherwise (insertion order preserved, as for a Python dict). -/
def dictInsert {α β : Type} [DecidableEq α] (k : α) (v : β) :
    List (α × β) → List (α × β)
  | [] => [(k, v)]
  | p :: rest => if p.1 = k then (k, v) :: rest else p :: dictInsert k v rest

/-- The pyblustream `Matrix` collaborator, reduced to what media_player.py
reads: the two input catalogs and which optional CEC methods exist. -/
structure Matrix where
  inputs_by_id : List (Nat × String)
  inputs_by_name : List (String × Nat)
  has_send_cec_power_on : Bool
  has_send_cec_power_off : Bool
  has_send_cec_volume_up : Bool
  has_send_cec_volume_down : Bool
  has_send_cec_mute : Bool
  deriving DecidableEq

/-- `matrix.change_source(output_id=..., input_id=...)`: always present. -/
def Matrix.change_source (m : Matrix) (output_id input_id : Nat) : DeviceCall :=
  DeviceCall.change_source output_id input_id

/-- `matrix.send_cec_power_on(output_id)`: raises `AttributeError` when the
installed pyblustream lacks the method. -/
def Matrix.send_cec_power_on (m : Matrix) (output_id : Nat) :
    Except String DeviceCall :=
  if m.has_send_cec_power_on then Except.ok (DeviceCall.cec_power_on output_id)
  else Except.error "AttributeError"

/-- `matrix.send_cec_power_off(output_id)` under the same convention. -/
def Matrix.send_cec_power_off (m : Matrix) (output_id : Nat) :
    Except String DeviceCall :=
  if m.has_send_cec_power_off then Except.ok (DeviceCall.cec_power_off output_id)
  else Except.error "AttributeError"

/-- `matrix.send_cec_volume_up(output_id)` under the same convention. -/
def Matrix.send_cec_volume_up (m : Matrix) (output_id : Nat) :
    Except String DeviceCall :=
  if m.has_send_cec_volume_up then Except.ok (DeviceCall.cec_volume_up output_id)
  else Except.error "AttributeError"

/-- `matrix.send_cec_volume_down(output_id)` under the same convention. -/
def Matrix.send_cec_volume_down (m : Matrix) (output_id : Nat) :
    Except String DeviceCall :=
  if m.has_send_cec_volume_down then Except.ok (DeviceCall.cec_volume_down output_id)
  else Except.error "AttributeError"

/-- `matrix.send_cec_mute(output_id)` under the same convention. -/
def Matrix.send_cec_mute (m : Matrix) (output_id : Nat) :
    Except String DeviceCall :=
  if m.has_send_cec_mute then Except.ok (DeviceCall.cec_mute output_id)
  else Except.error "AttributeError"

/-- `MatrixOutput` entity state: id plus the displayed source and power. -/
structure MatrixOutput where
  output_id : Nat
  attr_source : Option String
  attr_state : Option MediaPlayerState
  deriving DecidableEq

/-- `MatrixEntity` (the whole-matrix entity): displayed power only. -/
structure MatrixEntity where
  attr_state : Option MediaPlayerState
  deriving DecidableEq

/-- `MatrixOutput.set_state`: overwrite `_attr_state` (then schedule a UI
refresh, which has no modelled effect). -/
def MatrixOutput.set_state (e : MatrixOutput) (s : Option MediaPlayerState) :
    MatrixOutput :=
  { e with attr_state := s }

/-- `MatrixEntity.set_state`: overwrite `_attr_state`. -/
def MatrixEntity.set_state (e : MatrixEntity) (s : Option MediaPlayerState) :
    MatrixEntity :=
  { e with attr_state := s }

/-- `MatrixOutput.set_source`: line 210 is the raising subscript
`self._matrix.inputs_by_id[input_id]`, so an absent key is a `KeyError`;
on success `_attr_source` becomes the catalog name. -/
def MatrixOutput.set_source (e : MatrixOutput) (m : Matrix) (input_id : Nat) :
    Except String MatrixOutput :=
  match dictGet input_id m.inputs_by_id with
  | some name => Except.ok { e with attr_source := some name }
  | none => Except.error "KeyError"

/-- Result of a user action on an output entity: the (possibly updated)
entity, the device calls made, and the log entries emitted.  No `Except`
layer: none of the action methods lets an exception escape. -/
structure ActionResult where
  entity : MatrixOutput
  calls : List DeviceCall
  logs : List LogEntry
  deriving DecidableEq

/-- `MatrixOutput.select_source`: `inputs_by_name.get(source)` then
`if input_id:` — Python truthiness, so both `None` and `0` take the
rejection branch, which only logs at error level. -/
def MatrixOutput.select_source (e : MatrixOutput) (m : Matrix) (source : String) :
    ActionResult :=
  match dictGet source m.inputs_by_name with
  | some input_id =>
    if input_id ≠ 0 then
      { entity := e, calls := [m.change_source e.output_id input_id], logs := [] }
    else
      { entity := e, calls := [],
        logs := [{ level := LogLevel.error,
                   msg := "Invalid input source: %s, valid sources %s" }] }
  | none =>
      { entity := e, calls := [],
        logs := [{ level := LogLevel.error,
                   msg := "Invalid input source: %s, valid sources %s" }] }

/-- `MatrixOutput.turn_on`: try `send_cec_power_on`, catching
`AttributeError` into an error log; nothing propagates. -/
def MatrixOutput.turn_on (e : MatrixOutput) (m : Matrix) : ActionResult :=
  match m.send_cec_power_on e.output_id with
  | Except.ok c => { entity := e, calls := [c], logs := [] }
  | Except.error _ =>
      { entity := e, calls := [],
        logs := [{ level := LogLevel.error,
                   msg := "CEC power on not supported by pyblustream library" }] }

/-- `MatrixOutput.turn_off` under the same try/except pattern. -/
def MatrixOutput.turn_off (e : MatrixOutput) (m : Matrix) : ActionResult :=
  match m.send_cec_power_off e.output_id with
  | Except.ok c => { entity := e, calls := [c], logs := [] }
  | Except.error _ =>
      { entity := e, calls := [],
        logs := [{ level := LogLevel.error,
                   msg := "CEC power off not supported by pyblustream library" }] }

/-- `MatrixOutput.volume_up` under the same try/except pattern. -/
def MatrixOutput.volume_up (e : MatrixOutput) (m : Matrix) : ActionResult :=
  match m.send_cec_volume_up e.output_id with
  | Except.ok c => { entity := e, calls := [c], logs := [] }
  | Except.error _ =>
      { entity := e, calls := [],
        logs := [{ level := LogLevel.error,
                   msg := "CEC volume up not supported by pyblustream library" }] }

/-- `MatrixOutput.volume_down` under the same try/except pattern. -/
def MatrixOutput.volume_down (e : MatrixOutput) (m : Matrix) : ActionResult :=
  match m.send_cec_volume_down e.output_id with
  | Except.ok c => { entity := e, calls := [c], logs := [] }
  | Except.error _ =>
      { entity := e, calls := [],
        logs := [{ level := LogLevel.error,
                   msg := "CEC volume down not supported by pyblustream library" }] }

/-- `MatrixOutput.mute_volume(mute)`: the `mute` argument is accepted but the
body only sends the CEC mute toggle, with the same try/except pattern. -/
def MatrixOutput.mute_volume (e : MatrixOutput) (m : Matrix) (mute : Bool) :
    ActionResult :=
  match m.send_cec_mute e.output_id with
  | Except.ok c => { entity := e, calls := [c], logs := [] }
  | Except.error _ =>
      { entity := e, calls := [],
        logs := [{ level := LogLevel.error,
                   msg := "CEC mute not supported by pyblustream library" }] }

/-- `MyListener` registry: dict from output id to `MatrixOutput`, plus the
insertion-ordered list of whole-matrix entities. -/
structure MyListener where
  matrix_output_entities : List (Nat × MatrixOutput)
  matrix_entities : List MatrixEntity
  deriving DecidableEq

/-- `MyListener.add_matrix_output_entity`: dict assignment, so a second
registration for the same id replaces the first. -/
def MyListener.add_matrix_output_entity (l : MyListener) (output_id : Nat)
    (entity : MatrixOutput) : MyListener :=
  { l with matrix_output_entities :=
      dictInsert output_id entity l.matrix_output_entities }

/-- `MyListener.add_matrix_entity`: list append. -/
def MyListener.add_matrix_entity (l : MyListener) (entity : MatrixEntity) :
    MyListener :=
  { l with matrix_entities := l.matrix_entities ++ [entity] }

/-- `MyListener.source_changed`: `.get(output_id)`; when an entity is
registered, its `set_source` runs (and its `KeyError` propagates); when
none is, nothing happens. -/
def MyListener.source_changed (l : MyListener) (m : Matrix)
    (output_id input_id : Nat) : Except String MyListener :=
  match dictGet output_id l.matrix_output_entities with
  | none => Except.ok l
  | some entity =>
    match entity.set_source m input_id with
    | Except.ok entity2 =>
        Except.ok
          { l with matrix_output_entities :=
              dictInsert output_id entity2 l.matrix_output_entities }
    | Except.error err => Except.error err

/-- `MyListener.connected`: empty body. -/
def MyListener.connected (l : MyListener) : MyListener := l

/-- `MyListener.disconnected`: `set_state(None)` on every matrix entity and
every output entity. -/
def MyListener.disconnected (l : MyListener) : MyListener :=
  { matrix_entities := l.matrix_entities.map (fun e => e.set_state none),
    matrix_output_entities :=
      l.matrix_output_entities.map (fun p => (p.1, p.2.set_state none)) }

/-- Power-string decoding of `MyListener.power_changed`: exact matches on
"ON" and "OFF", anything else becomes `None`. -/
def powerToState (power : String) : Option MediaPlayerState :=
  if power = "ON" then some MediaPlayerState.on
  else if power = "OFF" then some MediaPlayerState.off
  else none

/-- `MyListener.power_changed`: decode, then `set_state` on every matrix
entity and every output entity. -/
def MyListener.power_changed (l : MyListener) (power : String) : MyListener :=
  let state := powerToState power
  { matrix_entities := l.matrix_entities.map (fun e => e.set_state state),
    matrix_output_entities :=
      l.matrix_output_entities.map (fun p => (p.1, p.2.set_state state)) }

/-- Observation: every registered subscriber (matrix entities and output
entities alike) currently displays power state `s`. -/
def MyListener.allStates (l : MyListener) (s : Option MediaPlayerState) : Bool :=
  l.matrix_entities.all (fun e => e.attr_state = s) &&
  l.matrix_output_entities.all (fun p => p.2.attr_state = s)

/-- Shorthand for the action outcome that makes no device call, leaves the
entity untouched and emits exactly one error-level log line: the outcome of
the rejection branch of select_source and of every CEC except-branch. -/
def errorOnly (e : MatrixOutput) (s : String) : ActionResult :=
  { entity := e, calls := [],
    logs := [{ level := LogLevel.error, msg := s }] }

/-- Concrete matrix fixture: two inputs, all CEC methods present. -/
def wMatrix : Matrix :=
  { inputs_by_id := [(1, "HDMI1"), (2, "HDMI2")],
    inputs_by_name := [("HDMI1", 1), ("HDMI2", 2)],
    has_send_cec_power_on := true,
    has_send_cec_power_off := true,
    has_send_cec_volume_up := true,
    has_send_cec_volume_down := true,
    has_send_cec_mute := true }

/-- Concrete matrix fixture lacking every CEC method (old pyblustream). -/
def wMatrixNoCec : Matrix :=
  { wMatrix with
    has_send_cec_power_on := false,
    has_send_cec_power_off := false,
    has_send_cec_volume_up := false,
    has_send_cec_volume_down := false,
    has_send_cec_mute := false }

/-- Concrete matrix fixture whose catalog assigns an input the id 0. -/
def wMatrixZero : Matrix :=
  { wMatrix with
    inputs_by_id := [(0, "HDMI0")],
    inputs_by_name := [("HDMI0", 0)] }

/-- Concrete output entity fixture, used registered under output id 10. -/
def wOut10 : MatrixOutput :=
  { output_id := 10, attr_source := some "HDMI2", attr_state := none }

/-- Concrete whole-matrix entity fixture. -/
def wDevice : MatrixEntity := { attr_state := some MediaPlayerState.on }

/-- Concrete listener fixture: one matrix entity, one registered output. -/
def wListener : MyListener :=
  { matrix_output_entities := [(10, wOut10)], matrix_entities := [wDevice] }

/-- Looking a key up right after inserting it finds the inserted value. -/
theorem dictGet_dictInsert_self {α β : Type} [DecidableEq α] (k : α) (v : β)
    (xs : List (α × β)) : dictGet k (dictInsert k v xs) = some v := by
  induction xs with
  | nil => simp [dictGet, dictInsert]
  | cons p rest ih =>
    by_cases h : p.1 = k
    · simp [dictGet, dictInsert, h]
    · simp [dictGet, dictInsert, h, ih]

/-- Inserting twice at the same key is the same as inserting the second
value once: the first binding is gone without trace. -/
theorem dictInsert_dictInsert_self {α β : Type} [DecidableEq α] (k : α)
    (v1 v2 : β) (xs : List (α × β)) :
    dictInsert k v2 (dictInsert k v1 xs) = dictInsert k v2 xs := by
  induction xs with
  | nil => simp [dictInsert]
  | cons p rest ih =>
    by_cases h : p.1 = k
    · simp [dictInsert, h]
    · simp [dictInsert, h, ih]

/-- Broadcasting one state to all entities makes allStates hold for it. -/
theorem allStates_power_changed (l : MyListener) (v : String) :
    (l.power_changed v).allStates (powerToState v) = true := by
  simp [MyListener.power_changed, MyListener.allStates, List.all_map,
    Function.comp, MatrixEntity.set_state, MatrixOutput.set_state,
    List.all_eq_true]

/-- C1: for every output id O registered with the listener and every input
id I in the matrix input catalog, source_changed(O, I) updates the entry
for O so that its displayed source is the catalog name of I; when O has no
registered subscriber, no exception is raised and the listener (hence every
registered subscriber) is left exactly as it was. -/
theorem source_changed_delivers (m : Matrix) (l : MyListener) (O I : Nat)
    (name : String) (e : MatrixOutput)
    (hI : dictGet I m.inputs_by_id = some name) :
    (dictGet O l.matrix_output_entities = some e →
      l.source_changed m O I =
        Except.ok
          { l with
            matrix_output_entities :=
              dictInsert O { e with attr_source := some name }
                l.matrix_output_entities } ∧
      dictGet O (dictInsert O { e with attr_source := some name }
          l.matrix_output_entities) =
        some { e with attr_source := some name }) ∧
    (dictGet O l.matrix_output_entities = none →
      l.source_changed m O I = Except.ok l) := by
  constructor
  · intro hO
    refine ⟨?_, dictGet_dictInsert_self ..⟩
    simp [MyListener.source_changed, hO, MatrixOutput.set_source, hI]
  · intro hO
    simp [MyListener.source_changed, hO]

/-- C1 witness: on the concrete fixture, source_changed(10, 1) rewrites
output 10's displayed source to "HDMI1". -/
theorem source_changed_delivers_witness :
    wListener.source_changed wMatrix 10 1 =
      Except.ok
        { wListener with
          matrix_output_entities :=
            dictInsert 10 { wOut10 with attr_source := some "HDMI1" }
              wListener.matrix_output_entities } ∧
    dictGet 10 (dictInsert 10 { wOut10 with attr_source := some "HDMI1" }
        wListener.matrix_output_entities) =
      some { wOut10 with attr_source := some "HDMI1" } :=
  (source_changed_delivers wMatrix wListener 10 1 "HDMI1" wOut10 rfl).1 rfl

/-- C2 counterexample: set_source with an input id absent from the catalog
raises (KeyError from the subscript on line 210); it neither logs nor
returns normally, refuting the claim that it does not throw. -/
theorem set_source_unknown_raises_cx :
    wOut10.set_source wMatrix 99 = Except.error "KeyError" := rfl

/-- C2 amended: for every output subscriber and every input_id not present
in inputs_by_id, set_source(input_id) raises a KeyError from the catalog
subscript; it does not log, and the displayed source is not updated because
the exception aborts the method before any assignment. -/
theorem set_source_unknown_raises (m : Matrix) (e : MatrixOutput)
    (input_id : Nat) (h : dictGet input_id m.inputs_by_id = none) :
    e.set_source m input_id = Except.error "KeyError" := by
  simp [MatrixOutput.set_source, h]

/-- C2 witness: the amended statement evaluated at input id 98 on the
concrete fixture. -/
theorem set_source_unknown_raises_witness :
    wOut10.set_source wMatrix 98 = Except.error "KeyError" :=
  set_source_unknown_raises wMatrix wOut10 98 rfl

/-- C3: power_changed("ON") drives every registered subscriber to ON,
power_changed("OFF") to OFF, and any other string to UNKNOWN (None). -/
theorem power_changed_tristate (l : MyListener) (v : String) :
    (l.power_changed "ON").allStates (some MediaPlayerState.on) = true ∧
    (l.power_changed "OFF").allStates (some MediaPlayerState.off) = true ∧
    (v ≠ "ON" → v ≠ "OFF" → (l.power_changed v).allStates none = true) := by
  refine ⟨?_, ?_, fun h1 h2 => ?_⟩
  · have h := allStates_power_changed l "ON"
    rwa [show powerToState "ON" = some MediaPlayerState.on from rfl] at h
  · have h := allStates_power_changed l "OFF"
    rwa [show powerToState "OFF" = some MediaPlayerState.off from rfl] at h
  · have h := allStates_power_changed l v
    unfold powerToState at h
    rwa [if_neg h1, if_neg h2] at h

/-- C3 witness: an unrecognised power string drives the concrete fixture to
UNKNOWN everywhere. -/
theorem power_changed_tristate_witness :
    (wListener.power_changed "BANANA").allStates none = true :=
  (power_changed_tristate wListener "BANANA").2.2 (by decide) (by decide)

/-- C4: disconnected() sets every registered subscriber to UNKNOWN (None)
whatever its prior state, and running it twice ends in the same listener
state as running it once. -/
theorem disconnected_unknown_idem (l : MyListener) :
    l.disconnected.allStates none = true ∧
    l.disconnected.disconnected = l.disconnected := by
  constructor
  · simp [MyListener.disconnected, MyListener.allStates, List.all_map,
      Function.comp, MatrixEntity.set_state, MatrixOutput.set_state,
      List.all_eq_true]
  · simp only [MyListener.disconnected, List.map_map]
    rfl

/-- C5: select_source with a name absent from inputs_by_name makes no
device call, logs one error-level rejection, and leaves the entity (hence
its displayed source) unchanged. -/
theorem select_source_unknown_rejected (m : Matrix) (e : MatrixOutput)
    (source : String) (h : dictGet source m.inputs_by_name = none) :
    e.select_source m source =
      errorOnly e "Invalid input source: %s, valid sources %s" := by
  simp [MatrixOutput.select_source, errorOnly, h]

/-- C5 witness: selecting the unknown name "DVD" on the concrete fixture is
rejected with no device call. -/
theorem select_source_unknown_rejected_witness :
    wOut10.select_source wMatrix "DVD" =
      errorOnly wOut10 "Invalid input source: %s, valid sources %s" :=
  select_source_unknown_rejected wMatrix wOut10 "DVD" rfl

/-- C6: when the library lacks the corresponding CEC method (the call
raises AttributeError), each of turn_on, turn_off, volume_up, volume_down
and mute_volume catches it, logs one error-level entry, makes no device
call, leaves the entity unchanged, and (by the exception-free return type
of the embedding) propagates nothing to the caller. -/
theorem cec_unsupported_logged_noop (m : Matrix) (e : MatrixOutput)
    (mute : Bool) :
    (m.has_send_cec_power_on = false →
      e.turn_on m =
        errorOnly e "CEC power on not supported by pyblustream library") ∧
    (m.has_send_cec_power_off = false →
      e.turn_off m =
        errorOnly e "CEC power off not supported by pyblustream library") ∧
    (m.has_send_cec_volume_up = false →
      e.volume_up m =
        errorOnly e "CEC volume up not supported by pyblustream library") ∧
    (m.has_send_cec_volume_down = false →
      e.volume_down m =
        errorOnly e "CEC volume down not supported by pyblustream library") ∧
    (m.has_send_cec_mute = false →
      e.mute_volume m mute =
        errorOnly e "CEC mute not supported by pyblustream library") := by
  refine ⟨fun h => ?_, fun h => ?_, fun h => ?_, fun h => ?_, fun h => ?_⟩ <;>
    simp [MatrixOutput.turn_on, MatrixOutput.turn_off, MatrixOutput.volume_up,
      MatrixOutput.volume_down, MatrixOutput.mute_volume,
      Matrix.send_cec_power_on, Matrix.send_cec_power_off,
      Matrix.send_cec_volume_up, Matrix.send_cec_volume_down,
      Matrix.send_cec_mute, errorOnly, h]

/-- C6 witness: on the fixture lacking every CEC method, all five actions
reduce to the logged no-op. -/
theorem cec_unsupported_logged_noop_witness :
    wOut10.turn_on wMatrixNoCec =
      errorOnly wOut10 "CEC power on not supported by pyblustream library" ∧
    wOut10.turn_off wMatrixNoCec =
      errorOnly wOut10 "CEC power off not supported by pyblustream library" ∧
    wOut10.volume_up wMatrixNoCec =
      errorOnly wOut10 "CEC volume up not supported by pyblustream library" ∧
    wOut10.volume_down wMatrixNoCec =
      errorOnly wOut10 "CEC volume down not supported by pyblustream library" ∧
    wOut10.mute_volume wMatrixNoCec true =
      errorOnly wOut10 "CEC mute not supported by pyblustream library" :=
  ⟨(cec_unsupported_logged_noop wMatrixNoCec wOut10 true).1 rfl,
   (cec_unsupported_logged_noop wMatrixNoCec wOut10 true).2.1 rfl,
   (cec_unsupported_logged_noop wMatrixNoCec wOut10 true).2.2.1 rfl,
   (cec_unsupported_logged_noop wMatrixNoCec wOut10 true).2.2.2.1 rfl,
   (cec_unsupported_logged_noop wMatrixNoCec wOut10 true).2.2.2.2 rfl⟩

/-- C7: registering a second output subscriber under the same id yields
exactly the listener obtained by registering only the second one, the
lookup for that id now returns the second subscriber, and every subsequent
source_changed for that id behaves as if only the second had ever been
registered — the first receives nothing. -/
theorem reregister_replaces (l : MyListener) (O : Nat) (e1 e2 : MatrixOutput)
    (m : Matrix) (I : Nat) :
    (l.add_matrix_output_entity O e1).add_matrix_output_entity O e2 =
      l.add_matrix_output_entity O e2 ∧
    dictGet O ((l.add_matrix_output_entity O e1).add_matrix_output_entity O
      e2).matrix_output_entities = some e2 ∧
    ((l.add_matrix_output_entity O e1).add_matrix_output_entity O
        e2).source_changed m O I =
      (l.add_matrix_output_entity O e2).source_changed m O I := by
  have key : (l.add_matrix_output_entity O e1).add_matrix_output_entity O e2 =
      l.add_matrix_output_entity O e2 := by
    simp [MyListener.add_matrix_output_entity, dictInsert_dictInsert_self]
  refine ⟨key, ?_, by rw [key]⟩
  rw [key]
  simp [MyListener.add_matrix_output_entity, dictGet_dictInsert_self]

/-- C8: connected() broadcasts nothing and leaves the listener, hence the
state of every registered subscriber, exactly as it was. -/
theorem connected_noop (l : MyListener) : l.connected = l := rfl

/-- C9: when inputs_by_name maps the requested name to input id 0, the
Python truthiness test on line 216 treats the looked-up id as absent, so
select_source takes the rejection branch and makes no change_source call
even though the name is present in the table. -/
theorem select_source_zero_id_rejected (m : Matrix) (e : MatrixOutput)
    (source : String) (h : dictGet source m.inputs_by_name = some 0) :
    e.select_source m source =
      errorOnly e "Invalid input source: %s, valid sources %s" := by
  simp [MatrixOutput.select_source, errorOnly, h]

/-- C9 witness: on the fixture whose catalog contains "HDMI0" with id 0,
selecting "HDMI0" is rejected with no device call. -/
theorem select_source_zero_id_rejected_witness :
    wOut10.select_source wMatrixZero "HDMI0" =
      errorOnly wOut10 "Invalid input source: %s, valid sources %s" :=
  select_source_zero_id_rejected wMatrixZero wOut10 "HDMI0" rfl

/-- C10: the mute argument of mute_volume has no influence — any two
arguments give identical results — and when the CEC mute method exists the
single device call is send_cec_mute on this output. -/
theorem mute_volume_ignores_mute (m : Matrix) (e : MatrixOutput)
    (m1 m2 : Bool) :
    e.mute_volume m m1 = e.mute_volume m m2 ∧
    (m.has_send_cec_mute = true →
      (e.mute_volume m m1).calls = [DeviceCall.cec_mute e.output_id]) := by
  refine ⟨rfl, fun h => ?_⟩
  simp [MatrixOutput.mute_volume, Matrix.send_cec_mute, h]

/-- C10 witness: on the fully capable fixture, mute_volume true performs
exactly the CEC mute call on output 10. -/
theorem mute_volume_ignores_mute_witness :
    (wOut10.mute_volume wMatrix true).calls = [DeviceCall.cec_mute 10] :=
  (mute_volume_ignores_mute wMatrix wOut10 true false).2 rfl

end Blustream
